import Mathlib

/-!
Verification of the native filesystem bridge fragment (unix_jni.h and
namespace-sandbox-dummy.c): the syscall shims, the stat timestamp
extractor, the errno-to-exception translator, the CHECK macro and the
placeholder entry point. Function bodies that the repository declares in
the header but does not define in the fragment are modelled from the
specification; such definitions carry a doc comment starting with
"Modelled from the spec:".
-/

namespace UnixJni

/-- Range of the C type int on the target ABI: minimum value. -/
def INT_MIN : Int := -(2 ^ 31)

/-- Range of the C type int on the target ABI: maximum value. -/
def INT_MAX : Int := 2 ^ 31 - 1

/-- C conversion of a wider integer value to int: reduction modulo 2^32
with the result interpreted in the signed range [-2^31, 2^31). This is
what returning a wider time value through the declared int return type
performs at the interface. -/
def toCInt (v : Int) : Int :=
  (v + 2 ^ 31) % 2 ^ 32 - 2 ^ 31

/-- UNIX error number: no such file or directory. -/
def ENOENT : Int := 2

/-- UNIX error number: permission denied. -/
def EACCES : Int := 13

/-- UNIX error number: not a directory. -/
def ENOTDIR : Int := 20

/-- UNIX error number: function not implemented. -/
def ENOSYS : Int := 38

/-- Modelled from the spec: the platform stat record as this fragment
reads it (spec section 3): three timestamps, each with a whole-second and
a nanosecond sub-field. The platform's underlying time fields may be
wider than the interface's int return type, so they are unbounded
integers here. -/
structure StatBuf where
  st_atime : Int
  st_atimensec : Int
  st_mtime : Int
  st_mtimensec : Int
  st_ctime : Int
  st_ctimensec : Int
deriving DecidableEq, Repr

/-- Encoding for different timestamps in a struct stat, as declared in
unix_jni.h: the closed enumeration STAT_ATIME, STAT_MTIME, STAT_CTIME. -/
inductive StatTimes where
  | STAT_ATIME
  | STAT_MTIME
  | STAT_CTIME
deriving DecidableEq, Repr

/-- The whole-second sub-field of the stat record selected by a
timestamp kind (the value as stored in the record). -/
def statSecField (statbuf : StatBuf) : StatTimes → Int
  | .STAT_ATIME => statbuf.st_atime
  | .STAT_MTIME => statbuf.st_mtime
  | .STAT_CTIME => statbuf.st_ctime

/-- The nanosecond sub-field of the stat record selected by a timestamp
kind (the value as stored in the record). -/
def statNsecField (statbuf : StatBuf) : StatTimes → Int
  | .STAT_ATIME => statbuf.st_atimensec
  | .STAT_MTIME => statbuf.st_mtimensec
  | .STAT_CTIME => statbuf.st_ctimensec

/-- Modelled from the spec: StatSeconds (declared in unix_jni.h with
return type int, body not in the fragment). Per spec 4.2 the seconds are
taken directly from the corresponding sub-field without rounding or
adjustment; the declared int return type applies the C conversion to int
at the interface. -/
def StatSeconds (statbuf : StatBuf) (t : StatTimes) : Int :=
  toCInt (statSecField statbuf t)

/-- Modelled from the spec: StatNanoSeconds (declared in unix_jni.h with
return type int, body not in the fragment). Per spec 4.2 the nanoseconds
are taken directly from the corresponding sub-field without rounding or
adjustment; the declared int return type applies the C conversion to int
at the interface. -/
def StatNanoSeconds (statbuf : StatBuf) (t : StatTimes) : Int :=
  toCInt (statNsecField statbuf t)

/-- Outcome of invoking the extractor with a raw (integer-encoded)
timestamp kind: either both components are returned, or the process
aborts. -/
inductive RawStatOutcome where
  | returned (seconds nanoseconds : Int)
  | processAborted
deriving DecidableEq, Repr

/-- Modelled from the spec: the extractor as seen at the C ABI, where the
enum argument is an integer and callers could pass a value outside the
enumeration. Kinds 0, 1, 2 are STAT_ATIME, STAT_MTIME, STAT_CTIME in
declaration order; per spec 4.2 and 7 an unrecognized kind is a fatal
programming error (the process aborts rather than returning). -/
def statExtractRaw (statbuf : StatBuf) (t : Nat) : RawStatOutcome :=
  match t with
  | 0 => .returned (StatSeconds statbuf .STAT_ATIME) (StatNanoSeconds statbuf .STAT_ATIME)
  | 1 => .returned (StatSeconds statbuf .STAT_MTIME) (StatNanoSeconds statbuf .STAT_MTIME)
  | 2 => .returned (StatSeconds statbuf .STAT_CTIME) (StatNanoSeconds statbuf .STAT_CTIME)
  | _ => .processAborted

/-- Exception categories of the host runtime that the fixed
errno-to-category mapping targets (spec 4.3): the named entries plus the
fallback category for unmapped error numbers. -/
inductive ExceptionCategory where
  | fileNotFound
  | accessDenied
  | notADirectory
  | otherIOError
deriving DecidableEq, Repr

/-- Exception payload raised into the host runtime: a (category,
message) pair (spec section 3). -/
structure ExceptionPayload where
  category : ExceptionCategory
  message : String
deriving DecidableEq, Repr

/-- Modelled from the spec: the fixed mapping from standard UNIX error
numbers to host-runtime exception categories (spec 4.3), with the
"other I/O error" fallback for every unmapped number. -/
def exceptionClass (error_number : Int) : ExceptionCategory :=
  if error_number = ENOENT then .fileNotFound
  else if error_number = EACCES then .accessDenied
  else if error_number = ENOTDIR then .notADirectory
  else .otherIOError

/-- Modelled from the spec: ErrorMessage (declared in unix_jni.h, body
not in the fragment): the platform's standard human-readable description
of a UNIX error number, per the host C library's message table. -/
def ErrorMessage (error_number : Int) : String :=
  if error_number = ENOENT then "No such file or directory"
  else if error_number = EACCES then "Permission denied"
  else if error_number = ENOTDIR then "Not a directory"
  else if error_number = ENOSYS then "Function not implemented"
  else "Unknown error " ++ toString error_number

/-- Modelled from the spec: PostException (declared in unix_jni.h, body
not in the fragment). Plain translation, spec 4.3: the payload's
category comes from the fixed mapping and its message is the
caller-supplied string verbatim. -/
def PostException (error_number : Int) (message : String) : ExceptionPayload :=
  ⟨exceptionClass error_number, message⟩

/-- Modelled from the spec: PostFileException (declared in unix_jni.h,
body not in the fragment). File-qualified translation, spec 4.3 and 8:
same category mapping, message concatenates the filename and the
platform's standard description of the error number, in the conventional
"name (description)" format of the host runtime's own I/O errors. -/
def PostFileException (error_number : Int) (filename : String) : ExceptionPayload :=
  PostException error_number (filename ++ " (" ++ ErrorMessage error_number ++ ")")

/-- Modelled from the spec: the common shape of the three syscall shims
(spec 4.1 and 9): a compile-time availability flag selects between
verbatim forwarding to the underlying syscall and a stub that returns a
failure result with errno set to ENOSYS. The kernel-side behavior `sys`
takes the arguments and the caller's output buffer and yields the return
value, the resulting buffer content, and the errno the syscall sets on
failure (none when it does not set errno); the shim threads the process
errno through. -/
def runShimBuf {α β : Type} (available : Bool)
    (sys : α → β → Int × β × Option Int) (args : α) (buf : β)
    (errno0 : Int) : Int × β × Int :=
  if available then
    let r := sys args buf
    (r.1, r.2.1, (r.2.2).getD errno0)
  else
    (-1, buf, ENOSYS)

/-- Direct invocation of the underlying syscall, stated from the spec's
words for comparison with the shim (spec 4.1): the syscall's result is
returned unchanged and the syscall's own errno is left (errno changes
only when the syscall sets it). -/
def directSyscallOutcome {α β : Type}
    (sys : α → β → Int × β × Option Int) (args : α) (buf : β)
    (errno0 : Int) : Int × β × Int :=
  ((sys args buf).1, (sys args buf).2.1, ((sys args buf).2.2).getD errno0)

/-- Modelled from the spec: portable_fstatat (declared in unix_jni.h,
body not in the fragment): runs fstatat(2) if available, or sets errno
to ENOSYS if not. -/
def portable_fstatat (available : Bool)
    (fstatat : Int × String × Int → StatBuf → Int × StatBuf × Option Int)
    (dirfd : Int) (name : String) (statbuf : StatBuf) (flags : Int)
    (errno0 : Int) : Int × StatBuf × Int :=
  runShimBuf available fstatat (dirfd, name, flags) statbuf errno0

/-- Modelled from the spec: portable_getxattr (declared in unix_jni.h,
body not in the fragment): runs getxattr(2) if available, or sets errno
to ENOSYS if not. The output buffer is a byte list. -/
def portable_getxattr (available : Bool)
    (getxattr : String × String × Nat → List Nat → Int × List Nat × Option Int)
    (path name : String) (value : List Nat) (size : Nat)
    (errno0 : Int) : Int × List Nat × Int :=
  runShimBuf available getxattr (path, name, size) value errno0

/-- Modelled from the spec: portable_lgetxattr (declared in unix_jni.h,
body not in the fragment): runs lgetxattr(2) if available, or sets errno
to ENOSYS if not. The output buffer is a byte list. -/
def portable_lgetxattr (available : Bool)
    (lgetxattr : String × String × Nat → List Nat → Int × List Nat × Option Int)
    (path name : String) (value : List Nat) (size : Nat)
    (errno0 : Int) : Int × List Nat × Int :=
  runShimBuf available lgetxattr (path, name, size) value errno0

/-- Outcome of evaluating the CHECK macro from unix_jni.h: the lines it
writes to stderr and whether it aborts the process. -/
structure CheckOutcome where
  stderrLines : List String
  didAbort : Bool
deriving DecidableEq, Repr

/-- The CHECK macro of unix_jni.h: if the condition is false, it prints
"file:line: check failed: condition-text" to stderr and calls abort;
if the condition is true it does nothing. -/
def CHECK (condition : Bool) (file : String) (line : Nat)
    (conditionText : String) : CheckOutcome :=
  if condition then
    ⟨[], false⟩
  else
    ⟨[file ++ ":" ++ toString line ++ ": check failed: " ++ conditionText], true⟩

/-- Observable behavior of one process run: exit status and the lines
produced on the standard streams, plus any other side effects. -/
structure ProcessRun where
  exitStatus : Int
  stdoutLines : List String
  stderrLines : List String
  sideEffects : List String
deriving DecidableEq, Repr

/-- The placeholder entry point of namespace-sandbox-dummy.c: its main
consists solely of returning 0, so the process exits with status 0 and
produces no output and no side effects. -/
def namespaceSandboxDummyMain : ProcessRun :=
  ⟨0, [], [], []⟩

/-- Modelled from the spec: the stat-field extractor invoked with the
process errno threaded through (spec section 5): the extractor reads
only its arguments and touches no in-process shared state, so the errno
is returned unchanged. -/
def runStatSeconds (statbuf : StatBuf) (t : StatTimes) (errno0 : Int) :
    Int × Int :=
  (StatSeconds statbuf t, errno0)

/-- Modelled from the spec: plain translation invoked with the process
errno threaded through (spec section 5): the translator reads only its
arguments and touches no in-process shared state, so the errno is
returned unchanged. -/
def runPostException (error_number : Int) (message : String)
    (errno0 : Int) : ExceptionPayload × Int :=
  (PostException error_number message, errno0)

/-- The C conversion to int always lands in the int range. -/
theorem toCInt_bounds (v : Int) : INT_MIN ≤ toCInt v ∧ toCInt v ≤ INT_MAX := by
  have h0 : ((2 : Int) ^ 32) ≠ 0 := by norm_num
  have h1 := Int.emod_nonneg (v + 2 ^ 31) h0
  have h2 := Int.emod_lt_of_pos (v + 2 ^ 31) (show (0 : Int) < 2 ^ 32 by norm_num)
  unfold toCInt INT_MIN INT_MAX
  omega

/-- The C conversion to int is the identity on values already in the int
range. -/
theorem toCInt_of_range (v : Int) (h1 : INT_MIN ≤ v) (h2 : v ≤ INT_MAX) :
    toCInt v = v := by
  unfold INT_MIN at h1
  unfold INT_MAX at h2
  unfold toCInt
  rw [Int.emod_eq_of_lt (by omega) (by omega)]
  omega

/-- C1 counterexample: a stat record storing 2^31 (one past INT_MAX) in
its access-time seconds sub-field: StatSeconds does not return the
stored value through the declared int interface. -/
theorem statSeconds_exact_counterexample :
    ¬ (StatSeconds ⟨2 ^ 31, 1, 2, 3, 4, 5⟩ StatTimes.STAT_ATIME
        = statSecField ⟨2 ^ 31, 1, 2, 3, 4, 5⟩ StatTimes.STAT_ATIME) := by
  decide

/-- C1 (amended): for every stat record whose selected timestamp
sub-fields lie within the C int range and every timestamp kind,
StatSeconds and StatNanoSeconds return exactly the stored whole-second
and nanosecond sub-field values, with no rounding, off-by-one, unit
scaling, or timezone adjustment. -/
theorem statSeconds_statNanoSeconds_exact (statbuf : StatBuf) (t : StatTimes)
    (hs1 : INT_MIN ≤ statSecField statbuf t)
    (hs2 : statSecField statbuf t ≤ INT_MAX)
    (hn1 : INT_MIN ≤ statNsecField statbuf t)
    (hn2 : statNsecField statbuf t ≤ INT_MAX) :
    StatSeconds statbuf t = statSecField statbuf t ∧
    StatNanoSeconds statbuf t = statNsecField statbuf t :=
  ⟨toCInt_of_range _ hs1 hs2, toCInt_of_range _ hn1 hn2⟩

/-- C1 witness: the extraction theorem evaluated at a concrete in-range
stat record. -/
theorem statSeconds_statNanoSeconds_exact_witness :
    StatSeconds ⟨5, 6, 7, 8, 9, 10⟩ StatTimes.STAT_MTIME = 7 ∧
    StatNanoSeconds ⟨5, 6, 7, 8, 9, 10⟩ StatTimes.STAT_MTIME = 8 :=
  statSeconds_statNanoSeconds_exact ⟨5, 6, 7, 8, 9, 10⟩ StatTimes.STAT_MTIME
    (by decide) (by decide) (by decide) (by decide)

/-- C9: StatSeconds and StatNanoSeconds are declared to return C int:
every value observable at this interface lies in the int range, and no
record makes an epoch-seconds value exceeding INT_MAX observable; a
record whose stored time field exceeds INT_MAX is not returned
faithfully. -/
theorem statSeconds_int_confined :
    (∀ statbuf t, INT_MIN ≤ StatSeconds statbuf t ∧
      StatSeconds statbuf t ≤ INT_MAX ∧
      INT_MIN ≤ StatNanoSeconds statbuf t ∧
      StatNanoSeconds statbuf t ≤ INT_MAX) ∧
    (∃ statbuf t, INT_MAX < statSecField statbuf t ∧
      StatSeconds statbuf t ≠ statSecField statbuf t) := by
  constructor
  · intro statbuf t
    obtain ⟨a, b⟩ := toCInt_bounds (statSecField statbuf t)
    obtain ⟨c, d⟩ := toCInt_bounds (statNsecField statbuf t)
    exact ⟨a, b, c, d⟩
  · exact ⟨⟨2 ^ 31, 0, 0, 0, 0, 0⟩, StatTimes.STAT_ATIME, by decide, by decide⟩

/-- C5: invoking the stat-field extractor with a raw timestamp kind
outside the closed enumeration aborts the process rather than returning
any value or recoverable failure result. -/
theorem statExtractRaw_invalid_kind_aborts (statbuf : StatBuf) (t : Nat)
    (h : 3 ≤ t) :
    statExtractRaw statbuf t = RawStatOutcome.processAborted := by
  match t, h with
  | (n + 3), _ => rfl

/-- C5 witness: the first integer outside the enumeration aborts. -/
theorem statExtractRaw_invalid_kind_aborts_witness :
    statExtractRaw ⟨1, 2, 3, 4, 5, 6⟩ 3 = RawStatOutcome.processAborted :=
  statExtractRaw_invalid_kind_aborts ⟨1, 2, 3, 4, 5, 6⟩ 3 (by decide)

/-- C2: plain translation always yields a payload with a category:
error numbers in the fixed table yield their documented category, every
number outside the table yields the "other I/O error" fallback, and the
message is the caller's string verbatim. -/
theorem postException_category_total (error_number : Int) (message : String) :
    (∃ c, (PostException error_number message).category = c) ∧
    (PostException error_number message).message = message ∧
    (error_number = ENOENT →
      (PostException error_number message).category = ExceptionCategory.fileNotFound) ∧
    (error_number = EACCES →
      (PostException error_number message).category = ExceptionCategory.accessDenied) ∧
    (error_number = ENOTDIR →
      (PostException error_number message).category = ExceptionCategory.notADirectory) ∧
    (error_number ≠ ENOENT → error_number ≠ EACCES → error_number ≠ ENOTDIR →
      (PostException error_number message).category = ExceptionCategory.otherIOError) := by
  refine ⟨⟨_, rfl⟩, rfl, ?_, ?_, ?_, ?_⟩
  · intro h
    subst h
    rfl
  · intro h
    subst h
    rfl
  · intro h
    subst h
    rfl
  · intro h1 h2 h3
    simp [PostException, exceptionClass, h1, h2, h3]

/-- C2 witness: a mapped error number gets its documented category and
an unmapped one gets the fallback. -/
theorem postException_category_total_witness :
    (PostException 2 "open failed").category = ExceptionCategory.fileNotFound ∧
    (PostException 999 "open failed").category = ExceptionCategory.otherIOError :=
  ⟨(postException_category_total 2 "open failed").2.2.1 (by decide),
   (postException_category_total 999 "open failed").2.2.2.2.2
     (by decide) (by decide) (by decide)⟩

/-- C4: the message produced by file-qualified translation is the
supplied filename followed by the platform's standard description of the
error number in parentheses; in particular the "file not found" error
number with filename "/tmp/x" gives "/tmp/x (No such file or
directory)". -/
theorem postFileException_message (error_number : Int) (filename : String) :
    (PostFileException error_number filename).message
      = filename ++ " (" ++ ErrorMessage error_number ++ ")" ∧
    (PostFileException ENOENT "/tmp/x").message
      = "/tmp/x (No such file or directory)" :=
  ⟨rfl, by decide⟩

/-- C3: when the underlying syscall is absent, each shim returns the
failure result -1, sets errno to ENOSYS, and leaves the caller's buffer
untouched (no partial or garbage result), for every kernel behavior (so
no emulation is attempted). -/
theorem shim_unavailable_enosys :
    (∀ fstatat dirfd name statbuf flags errno0,
      portable_fstatat false fstatat dirfd name statbuf flags errno0
        = (-1, statbuf, ENOSYS)) ∧
    (∀ getxattr path name value size errno0,
      portable_getxattr false getxattr path name value size errno0
        = (-1, value, ENOSYS)) ∧
    (∀ lgetxattr path name value size errno0,
      portable_lgetxattr false lgetxattr path name value size errno0
        = (-1, value, ENOSYS)) :=
  ⟨fun _ _ _ _ _ _ => rfl, fun _ _ _ _ _ _ => rfl, fun _ _ _ _ _ _ => rfl⟩

/-- C6: when the underlying syscall exists, each shim is observationally
equal to direct invocation of the syscall on every input: same return
value (including negative returns), same buffer content, and the
syscall's own errno behavior, with no retries and no error
translation. -/
theorem shim_available_forwards :
    (∀ fstatat dirfd name statbuf flags errno0,
      portable_fstatat true fstatat dirfd name statbuf flags errno0
        = directSyscallOutcome fstatat (dirfd, name, flags) statbuf errno0) ∧
    (∀ getxattr path name value size errno0,
      portable_getxattr true getxattr path name value size errno0
        = directSyscallOutcome getxattr (path, name, size) value errno0) ∧
    (∀ lgetxattr path name value size errno0,
      portable_lgetxattr true lgetxattr path name value size errno0
        = directSyscallOutcome lgetxattr (path, name, size) value errno0) :=
  ⟨fun _ _ _ _ _ _ => rfl, fun _ _ _ _ _ _ => rfl, fun _ _ _ _ _ _ => rfl⟩

/-- C8: determinism and absence of in-process shared state: the
extractor and translator results do not depend on the process errno; a
shim call's return value and buffer result depend only on its arguments
and the kernel behavior, not on the incoming errno; and a preceding
call's outcome (in particular a failure) never changes a later call's
result. -/
theorem operations_deterministic_no_shared_state {α β γ δ : Type} :
    (∀ statbuf t (e0 e0' : Int),
      (runStatSeconds statbuf t e0).1 = (runStatSeconds statbuf t e0').1) ∧
    (∀ error_number message (e0 e0' : Int),
      (runPostException error_number message e0).1
        = (runPostException error_number message e0').1) ∧
    (∀ (available : Bool) (sys : α → β → Int × β × Option Int) args buf
        (e0 e0' : Int),
      (runShimBuf available sys args buf e0).1
        = (runShimBuf available sys args buf e0').1 ∧
      (runShimBuf available sys args buf e0).2.1
        = (runShimBuf available sys args buf e0').2.1) ∧
    (∀ (av1 av2 : Bool) (sys1 : γ → δ → Int × δ × Option Int)
        (sys2 : α → β → Int × β × Option Int) args1 args1' buf1 buf1'
        args2 buf2 (e0 e0' : Int),
      (runShimBuf av2 sys2 args2 buf2 (runShimBuf av1 sys1 args1 buf1 e0).2.2).1
        = (runShimBuf av2 sys2 args2 buf2 (runShimBuf av1 sys1 args1' buf1' e0').2.2).1 ∧
      (runShimBuf av2 sys2 args2 buf2 (runShimBuf av1 sys1 args1 buf1 e0).2.2).2.1
        = (runShimBuf av2 sys2 args2 buf2 (runShimBuf av1 sys1 args1' buf1' e0').2.2).2.1) := by
  refine ⟨fun _ _ _ _ => rfl, fun _ _ _ _ => rfl, ?_, ?_⟩
  · intro available sys args buf e0 e0'
    cases available <;> simp [runShimBuf]
  · intro av1 av2 sys1 sys2 args1 args1' buf1 buf1' args2 buf2 e0 e0'
    cases av2 <;> simp [runShimBuf]

/-- C10: the CHECK macro: a false condition writes one diagnostic line
"file:line: check failed: condition-text" to stderr and aborts, so
control never continues past a failed check; a true condition produces
no output and no abort. -/
theorem check_macro_behavior (condition : Bool) (file : String) (line : Nat)
    (conditionText : String) :
    (condition = false →
      CHECK condition file line conditionText
        = ⟨[file ++ ":" ++ toString line ++ ": check failed: " ++ conditionText],
           true⟩) ∧
    (condition = true →
      CHECK condition file line conditionText = ⟨[], false⟩) := by
  cases condition <;> simp [CHECK]

/-- C10 witness: a concrete failed check and a concrete passed check. -/
theorem check_macro_behavior_witness :
    CHECK false "unix_jni.cc" 42 "0 <= t"
      = ⟨["unix_jni.cc" ++ ":" ++ toString 42 ++ ": check failed: " ++ "0 <= t"],
         true⟩ ∧
    CHECK true "unix_jni.cc" 42 "0 <= t" = ⟨[], false⟩ :=
  ⟨(check_macro_behavior false "unix_jni.cc" 42 "0 <= t").1 rfl,
   (check_macro_behavior true "unix_jni.cc" 42 "0 <= t").2 rfl⟩

/-- C7: the placeholder entry point exits with status 0, produces no
output on any stream, and performs no side effects. -/
theorem namespaceSandboxDummyMain_noop :
    namespaceSandboxDummyMain.exitStatus = 0 ∧
    namespaceSandboxDummyMain.stdoutLines = [] ∧
    namespaceSandboxDummyMain.stderrLines = [] ∧
    namespaceSandboxDummyMain.sideEffects = [] :=
  ⟨rfl, rfl, rfl, rfl⟩

end UnixJni
